import Mathlib

/-!
Shallow embedding of the chirality-runtime domain core
(crates/chirality-domain): lifecycle state machines, write-scope guard,
session-brief parser, and the Package / AgentSession entities, together
with theorems checking the specification's claims against them.

Conventions of the embedding:
* Rust `Result<T, DomainError>` becomes `Except DomainError T`.
* `std::path::Path` becomes a list of path components (`List String`);
  `Path::starts_with` is component-wise list prefix, `PathBuf` equality is
  list equality, mirroring Rust's component-based semantics.
* Filesystem canonicalization (`Path::canonicalize`) is a parameter
  `canon : Path → Option Path` of the functions that call it, since the
  domain core treats it as an opaque fallible resolution step.
* `serde_json::Value` becomes the inductive `Json`.
* Fresh ULID generation (`Ulid::new()`) is a string parameter supplied by
  the caller, since the domain code treats the ULID as an opaque token.
* `chrono::DateTime<Utc>` timestamps are opaque `Nat` instants supplied by
  the caller (`Utc::now()` becomes a `now` parameter).
-/

namespace Chirality

/-- Deliverable lifecycle state (src/crates/chirality-domain/src/state_machines.rs). -/
inductive DeliverableState where
  | Open
  | Initialized
  | SemanticReady
  | InProgress
  | Checking
  | Issued
deriving DecidableEq, Repr, Inhabited, Fintype

/-- Agent class: PERSONA (interactive) or TASK (straight-through)
(src/crates/chirality-domain/src/entities/session.rs). -/
inductive AgentClass where
  | Persona
  | Task
deriving DecidableEq, Repr, Inhabited, Fintype

/-- Agent session lifecycle state (src/crates/chirality-domain/src/state_machines.rs). -/
inductive SessionState where
  | Created
  | Active
  | Paused
  | Completed
  | Failed
  | Cancelled
deriving DecidableEq, Repr, Inhabited, Fintype

/-- Path model: list of components. `Path::starts_with` is list prefix. -/
abbrev Path := List String

/-- Rust `Display` of a path: components joined by `/`. Only appears inside
violation reason strings; no claim depends on its exact form. -/
def Path.display (p : Path) : String :=
  String.intercalate "/" p

/-- Domain errors (src/crates/chirality-domain/src/error.rs), restricted to the
variants the claims exercise. Field order follows the Rust struct variants. -/
inductive DomainError where
  | InvalidStateTransition (entity fromState toState : String)
  | WriteViolation (target_path : Path) (scope reason : String)
  | InvalidBrief (reason : String)
deriving DecidableEq, Repr

deriving instance DecidableEq for Except

/-- Rust `format!("{:?}", self)` for `DeliverableState`. -/
def DeliverableState.debugName : DeliverableState → String
  | .Open => "Open"
  | .Initialized => "Initialized"
  | .SemanticReady => "SemanticReady"
  | .InProgress => "InProgress"
  | .Checking => "Checking"
  | .Issued => "Issued"

/-- Rust `format!("{:?}", self)` for `SessionState`. -/
def SessionState.debugName : SessionState → String
  | .Created => "Created"
  | .Active => "Active"
  | .Paused => "Paused"
  | .Completed => "Completed"
  | .Failed => "Failed"
  | .Cancelled => "Cancelled"

/-- `DeliverableState::can_transition_to`: the deliverable transition table. -/
def DeliverableState.can_transition_to (s target : DeliverableState) : Bool :=
  match s, target with
  | .Open, .Initialized => true
  | .Initialized, .SemanticReady => true
  | .Initialized, .InProgress => true
  | .SemanticReady, .InProgress => true
  | .InProgress, .Checking => true
  | .Checking, .InProgress => true
  | .Checking, .Issued => true
  | _, _ => false

/-- `DeliverableState::transition_to`: new state, or `InvalidStateTransition`. -/
def DeliverableState.transition_to (s target : DeliverableState) :
    Except DomainError DeliverableState :=
  if s.can_transition_to target then
    .ok target
  else
    .error (.InvalidStateTransition "Deliverable" s.debugName target.debugName)

/-- `DeliverableState::is_terminal`. -/
def DeliverableState.is_terminal : DeliverableState → Bool
  | .Issued => true
  | _ => false

/-- `DeliverableState::allows_work`. -/
def DeliverableState.allows_work : DeliverableState → Bool
  | .Initialized => true
  | .SemanticReady => true
  | .InProgress => true
  | _ => false

/-- `SessionState::is_terminal`. -/
def SessionState.is_terminal : SessionState → Bool
  | .Completed => true
  | .Failed => true
  | .Cancelled => true
  | _ => false

/-- `SessionState::can_pause`. -/
def SessionState.can_pause (s : SessionState) (agent_class : AgentClass) : Bool :=
  agent_class = AgentClass.Persona && s = SessionState.Active

/-- `SessionState::can_transition_to`: match arms in source order; the
`(s, Cancelled, _) if !s.is_terminal()` guard becomes the guarded arm. -/
def SessionState.can_transition_to (s target : SessionState)
    (agent_class : AgentClass) : Bool :=
  match s, target, agent_class with
  | .Created, .Active, _ => true
  | .Active, .Completed, _ => true
  | .Active, .Failed, _ => true
  | .Active, .Paused, .Persona => true
  | .Paused, .Active, .Persona => true
  | .Paused, .Completed, .Persona => true
  | .Paused, .Failed, .Persona => true
  | s, .Cancelled, _ => !s.is_terminal
  | _, _, _ => false

/-- `SessionState::transition_to`. -/
def SessionState.transition_to (s target : SessionState)
    (agent_class : AgentClass) : Except DomainError SessionState :=
  if s.can_transition_to target agent_class then
    .ok target
  else
    .error (.InvalidStateTransition "AgentSession" s.debugName target.debugName)

/-- `SessionState::is_active`. -/
def SessionState.is_active : SessionState → Bool
  | .Active => true
  | _ => false

/-- States reachable by a Task-class session starting in `Created` through
successful `transition_to` calls. -/
inductive TaskReachable : SessionState → Prop where
  | created : TaskReachable .Created
  | step (s t : SessionState) : TaskReachable s →
      s.can_transition_to t .Task = true → TaskReachable t

/-- The deliverable transition pairs enumerated by the claim C2. -/
def deliverableTransitionTable : List (DeliverableState × DeliverableState) :=
  [(.Open, .Initialized),
   (.Initialized, .SemanticReady),
   (.Initialized, .InProgress),
   (.SemanticReady, .InProgress),
   (.InProgress, .Checking),
   (.Checking, .InProgress),
   (.Checking, .Issued)]

/-- The session-transition legality condition as worded by claim C3, written
independently of `can_transition_to` so the two can be compared. -/
def sessionSpecAllowed (s t : SessionState) (c : AgentClass) : Bool :=
  (s = SessionState.Created && t = SessionState.Active) ||
  (s = SessionState.Active &&
    (t = SessionState.Completed || t = SessionState.Failed)) ||
  (c = AgentClass.Persona &&
    ((s = SessionState.Active && t = SessionState.Paused) ||
     (s = SessionState.Paused &&
       (t = SessionState.Active || t = SessionState.Completed ||
        t = SessionState.Failed)))) ||
  (t = SessionState.Cancelled && !s.is_terminal)

theorem task_no_paused_target (s : SessionState) :
    s.can_transition_to .Paused .Task = false := by
  cases s <;> rfl

/-- C1: `can_transition_to(Paused, Task)` is false from every source state, no
Task-class session reachable from `Created` is ever `Paused`, and
`transition_to(Paused, Task)` always fails with `InvalidStateTransition`. -/
theorem c1_task_session_never_paused :
    (∀ s : SessionState, s.can_transition_to .Paused .Task = false) ∧
    (∀ s : SessionState, TaskReachable s → s ≠ .Paused) ∧
    (∀ s : SessionState, s.transition_to .Paused .Task =
      .error (.InvalidStateTransition "AgentSession" s.debugName "Paused")) := by
  refine ⟨task_no_paused_target, ?_, ?_⟩
  · intro s h
    induction h with
    | created => decide
    | step s t _ hstep _ =>
        intro ht
        rw [ht, task_no_paused_target s] at hstep
        exact Bool.false_ne_true hstep
  · intro s
    rw [SessionState.transition_to, task_no_paused_target s]
    rfl

/-- C1 witness: the reachability clause applied at a concrete reachable state. -/
theorem c1_witness : SessionState.Active ≠ SessionState.Paused :=
  c1_task_session_never_paused.2.1 .Active
    (TaskReachable.step .Created .Active TaskReachable.created (by decide))

/-- C2: `DeliverableState::transition_to` succeeds exactly on the seven pairs
of the transition table, and on every other pair fails with
`InvalidStateTransition` naming entity "Deliverable" and the two states
(the embedding is value-pure, so a failing call leaves the caller's stored
state untouched). -/
theorem c2_deliverable_transition_table (s t : DeliverableState) :
    (s.transition_to t = .ok t ↔ (s, t) ∈ deliverableTransitionTable) ∧
    ((s, t) ∉ deliverableTransitionTable →
      s.transition_to t =
        .error (.InvalidStateTransition "Deliverable" s.debugName t.debugName)) := by
  constructor
  · revert s t; decide
  · revert s t; decide

/-- C2 witness: a concrete pair outside the table is rejected. -/
theorem c2_witness :
    DeliverableState.Issued.transition_to .Open =
      .error (.InvalidStateTransition "Deliverable" "Issued" "Open") :=
  (c2_deliverable_transition_table .Issued .Open).2 (by decide)

/-- C3: `SessionState::can_transition_to` agrees with the claim's
characterization on every (source, target, class) triple, and whenever it is
false, `transition_to` fails with `InvalidStateTransition`. -/
theorem c3_session_transition_characterization
    (s t : SessionState) (c : AgentClass) :
    (s.can_transition_to t c = sessionSpecAllowed s t c) ∧
    (s.can_transition_to t c = false →
      s.transition_to t c =
        .error (.InvalidStateTransition "AgentSession" s.debugName t.debugName)) := by
  constructor
  · revert s t c; decide
  · revert s t c; decide

/-- C3 witness: a Task-class pause attempt from Active is rejected. -/
theorem c3_witness :
    SessionState.Active.transition_to .Paused .Task =
      .error (.InvalidStateTransition "AgentSession" "Active" "Paused") :=
  (c3_session_transition_characterization .Active .Paused .Task).2 (by decide)

/-- Write scope for an agent session
(src/crates/chirality-domain/src/write_guard.rs). The `None` variant is
named `NoneScope` because `None` would shadow `Option.none` notation. -/
inductive WriteScope where
  | NoneScope
  | DeliverableLocal (deliverable_id : String) (deliverable_path : Path)
  | ToolRootOnly (root_path : Path)
  | RepoMetadataOnly (allowed_files : List Path)
deriving DecidableEq, Repr

/-- Reason for write denial. -/
structure WriteViolation where
  target_path : Path
  scope : String
  reason : String
deriving DecidableEq, Repr

/-- Result of write validation. -/
inductive WriteValidation where
  | Allowed
  | Denied (v : WriteViolation)
deriving DecidableEq, Repr

/-- Rust `format!("{:?}", allowed_files)`: debug rendering of a path list,
quoted displays between square brackets. No claim depends on its exact form. -/
def debugPathList (files : List Path) : String :=
  "[" ++ String.intercalate ", "
    (files.map (fun f => "\x22" ++ Path.display f ++ "\x22")) ++ "]"

namespace WriteGuard

/-- `WriteGuard::is_within`: canonicalize both paths; if both resolve,
prefix test on the canonical forms, otherwise raw prefix test. `canon`
stands for `Path::canonicalize`, the opaque filesystem resolution step. -/
def is_within (canon : Path → Option Path) (child parent : Path) : Bool :=
  match canon child, canon parent with
  | some c, some p => p.isPrefixOf c
  | _, _ => parent.isPrefixOf child

/-- `WriteGuard::validate_write`. -/
def validate_write (canon : Path → Option Path) (scope : WriteScope)
    (target_path : Path) : WriteValidation :=
  match scope with
  | .NoneScope =>
      .Denied ⟨target_path, "None", "Agent has no write permission"⟩
  | .DeliverableLocal _ deliverable_path =>
      if is_within canon target_path deliverable_path then
        .Allowed
      else
        .Denied ⟨target_path,
          "DeliverableLocal(" ++ Path.display deliverable_path ++ ")",
          "Path is outside deliverable folder: " ++
            Path.display deliverable_path⟩
  | .ToolRootOnly root_path =>
      if is_within canon target_path root_path then
        .Allowed
      else
        .Denied ⟨target_path,
          "ToolRootOnly(" ++ Path.display root_path ++ ")",
          "Path is outside tool root: " ++ Path.display root_path⟩
  | .RepoMetadataOnly allowed_files =>
      if allowed_files.any (fun f => f == target_path) then
        .Allowed
      else
        .Denied ⟨target_path, "RepoMetadataOnly",
          "Path is not in allowed metadata files: " ++
            debugPathList allowed_files⟩

/-- `WriteGuard::ensure_allowed`. -/
def ensure_allowed (canon : Path → Option Path) (scope : WriteScope)
    (target_path : Path) : Except DomainError Unit :=
  match validate_write canon scope target_path with
  | .Allowed => .ok ()
  | .Denied v => .error (.WriteViolation v.target_path v.scope v.reason)

end WriteGuard

/-- C4: the containment check behind `DeliverableLocal` and `ToolRootOnly`:
when both paths canonicalize, containment is a prefix test on the canonical
forms; when either fails to canonicalize, it is a raw prefix test on the
unresolved paths; the scope allows the write exactly when the containment
check passes, and otherwise `validate_write` denies with a violation and
`ensure_allowed` surfaces it as a `WriteViolation` domain error. -/
theorem c4_write_scope_containment (canon : Path → Option Path)
    (did : String) (target root : Path) :
    (∀ ct cr, canon target = some ct → canon root = some cr →
      WriteGuard.is_within canon target root = cr.isPrefixOf ct) ∧
    ((canon target = none ∨ canon root = none) →
      WriteGuard.is_within canon target root = root.isPrefixOf target) ∧
    (WriteGuard.validate_write canon (.DeliverableLocal did root) target =
        .Allowed ↔ WriteGuard.is_within canon target root = true) ∧
    (WriteGuard.validate_write canon (.ToolRootOnly root) target =
        .Allowed ↔ WriteGuard.is_within canon target root = true) ∧
    (WriteGuard.is_within canon target root = false →
      (∃ v, WriteGuard.validate_write canon (.DeliverableLocal did root) target =
          .Denied v ∧
        WriteGuard.ensure_allowed canon (.DeliverableLocal did root) target =
          .error (.WriteViolation v.target_path v.scope v.reason)) ∧
      (∃ v, WriteGuard.validate_write canon (.ToolRootOnly root) target =
          .Denied v ∧
        WriteGuard.ensure_allowed canon (.ToolRootOnly root) target =
          .error (.WriteViolation v.target_path v.scope v.reason))) := by
  refine ⟨?_, ?_, ?_, ?_, ?_⟩
  · intro ct cr hct hcr
    simp [WriteGuard.is_within, hct, hcr]
  · intro h
    rcases h with h | h
    · cases hcr : canon root <;> simp [WriteGuard.is_within, h, hcr]
    · cases hct : canon target <;> simp [WriteGuard.is_within, h, hct]
  · by_cases hw : WriteGuard.is_within canon target root = true <;>
      simp [WriteGuard.validate_write, hw]
  · by_cases hw : WriteGuard.is_within canon target root = true <;>
      simp [WriteGuard.validate_write, hw]
  · intro hw
    constructor
    · refine ⟨⟨target, "DeliverableLocal(" ++ Path.display root ++ ")",
        "Path is outside deliverable folder: " ++ Path.display root⟩, ?_, ?_⟩
      · simp [WriteGuard.validate_write, hw]
      · simp [WriteGuard.ensure_allowed, WriteGuard.validate_write, hw]
    · refine ⟨⟨target, "ToolRootOnly(" ++ Path.display root ++ ")",
        "Path is outside tool root: " ++ Path.display root⟩, ?_, ?_⟩
      · simp [WriteGuard.validate_write, hw]
      · simp [WriteGuard.ensure_allowed, WriteGuard.validate_write, hw]

/-- C4 witness: with a canonicalizer that resolves nothing, a target under
the deliverable folder is allowed by the raw prefix fallback. -/
theorem c4_witness :
    WriteGuard.validate_write (fun _ => Option.none)
      (.DeliverableLocal "del:test" ["project", "PKG-01", "DEL-01.01"])
      ["project", "PKG-01", "DEL-01.01", "Datasheet.md"] = .Allowed :=
  (c4_write_scope_containment (fun _ => Option.none) "del:test"
    ["project", "PKG-01", "DEL-01.01", "Datasheet.md"]
    ["project", "PKG-01", "DEL-01.01"]).2.2.1.mpr (by decide)

/-- C5: `RepoMetadataOnly` allows a write exactly when the target path is
equal, by exact path equality with no canonicalization or prefix matching,
to an entry of the allow-list; every miss is denied and surfaces as a
`WriteViolation`. -/
theorem c5_repo_metadata_exact_match (canon : Path → Option Path)
    (allowed_files : List Path) (target : Path) :
    (WriteGuard.validate_write canon (.RepoMetadataOnly allowed_files) target =
        .Allowed ↔ target ∈ allowed_files) ∧
    (target ∉ allowed_files →
      WriteGuard.validate_write canon (.RepoMetadataOnly allowed_files) target =
        .Denied ⟨target, "RepoMetadataOnly",
          "Path is not in allowed metadata files: " ++
            debugPathList allowed_files⟩ ∧
      WriteGuard.ensure_allowed canon (.RepoMetadataOnly allowed_files) target =
        .error (.WriteViolation target "RepoMetadataOnly"
          ("Path is not in allowed metadata files: " ++
            debugPathList allowed_files))) := by
  have hmem : allowed_files.any (fun f => f == target) = true ↔
      target ∈ allowed_files := by
    simp [List.any_eq_true]
  constructor
  · by_cases h : target ∈ allowed_files <;>
      simp [WriteGuard.validate_write, hmem, h]
  · intro h
    have hfalse : allowed_files.any (fun f => f == target) = false := by
      simp [List.any_eq_false]
      intro x hx hx2
      exact h (hx2 ▸ hx)
    constructor
    · simp [WriteGuard.validate_write, hfalse]
    · simp [WriteGuard.ensure_allowed, WriteGuard.validate_write, hfalse]

/-- C5 witness: a path with the same filename in a different directory is
denied under `RepoMetadataOnly`. -/
theorem c5_witness :
    WriteGuard.validate_write (fun _ => Option.none)
      (.RepoMetadataOnly [["project", "_COORDINATION.md"]])
      ["other", "_COORDINATION.md"] =
      .Denied ⟨["other", "_COORDINATION.md"], "RepoMetadataOnly",
        "Path is not in allowed metadata files: " ++
          debugPathList [["project", "_COORDINATION.md"]]⟩ :=
  ((c5_repo_metadata_exact_match (fun _ => Option.none)
    [["project", "_COORDINATION.md"]] ["other", "_COORDINATION.md"]).2
    (by decide)).1

/-- `serde_json::Value`. Numbers are irrelevant to every claim and carried
as integers; objects are association lists with unique keys, looked up by
first match as in `serde_json::Map::get`. -/
inductive Json where
  | null
  | bool (b : Bool)
  | num (n : Int)
  | str (s : String)
  | arr (elems : List Json)
  | obj (fields : List (String × Json))
deriving Repr, Inhabited

/-- `Value::get(key)`: object field lookup; `None` on every other variant. -/
def Json.get (j : Json) (key : String) : Option Json :=
  match j with
  | .obj fields => fields.lookup key
  | _ => none

/-- `Value::as_str`. -/
def Json.as_str : Json → Option String
  | .str s => some s
  | _ => none

/-- `Value::as_array`. -/
def Json.as_array : Json → Option (List Json)
  | .arr elems => some elems
  | _ => none

/-- Session brief for Type 2 (TASK) agents
(src/crates/chirality-domain/src/entities/session.rs). -/
structure SessionBrief where
  task_definition : String
  scope_description : String
  output_contract : List String
  constraints : List String
  success_criteria : List String
  inputs : Json
deriving Repr, Inhabited

namespace BriefParser

/-- `BriefParser::parse_string_array`: string entries of a JSON array,
non-string entries silently dropped; empty when absent or not an array. -/
def parse_string_array (value : Option Json) : List String :=
  match value.bind Json.as_array with
  | some elems => elems.filterMap Json.as_str
  | none => []

/-- `BriefParser::parse`. -/
def parse (input : Json) : Except DomainError SessionBrief :=
  match (input.get "task_definition").bind Json.as_str with
  | none => .error (.InvalidBrief "Missing task_definition")
  | some task_definition =>
      .ok
        { task_definition
          scope_description :=
            ((input.get "scope_description").bind Json.as_str).getD ""
          output_contract := parse_string_array (input.get "output_contract")
          constraints := parse_string_array (input.get "constraints")
          success_criteria := parse_string_array (input.get "success_criteria")
          inputs := (input.get "inputs").getD .null }

/-- `BriefParser::validate_4_documents_brief`. -/
def validate_4_documents_brief (brief : SessionBrief) :
    Except DomainError Unit :=
  if (brief.inputs.get "deliverable_id").isNone then
    .error (.InvalidBrief "4_DOCUMENTS requires deliverable_id in inputs")
  else
    .ok ()

/-- `BriefParser::validate_preparation_brief`. -/
def validate_preparation_brief (brief : SessionBrief) :
    Except DomainError Unit :=
  if (brief.inputs.get "package_id").isNone &&
      (brief.inputs.get "project_id").isNone then
    .error (.InvalidBrief "PREPARATION requires package_id or project_id in inputs")
  else
    .ok ()

/-- `BriefParser::validate_chirality_framework_brief`. -/
def validate_chirality_framework_brief (brief : SessionBrief) :
    Except DomainError Unit :=
  if (brief.inputs.get "deliverable_id").isNone then
    .error (.InvalidBrief "CHIRALITY_FRAMEWORK requires deliverable_id in inputs")
  else
    .ok ()

/-- `BriefParser::validate_dependencies_brief`. -/
def validate_dependencies_brief (brief : SessionBrief) :
    Except DomainError Unit :=
  if (brief.inputs.get "deliverable_id").isNone &&
      (brief.inputs.get "package_id").isNone &&
      (brief.inputs.get "project_id").isNone then
    .error (.InvalidBrief
      "DEPENDENCIES requires a scope (deliverable_id, package_id, or project_id)")
  else
    .ok ()

/-- `BriefParser::validate_aggregation_brief`. -/
def validate_aggregation_brief (brief : SessionBrief) :
    Except DomainError Unit :=
  if (brief.inputs.get "project_id").isNone then
    .error (.InvalidBrief "AGGREGATION requires project_id in inputs")
  else
    .ok ()

/-- `BriefParser::validate`: basic validation, then agent-specific dispatch
on the agent name (Rust string match, compared literal by literal). -/
def validate (brief : SessionBrief) (agent_name : String) :
    Except DomainError Unit :=
  if brief.task_definition = "" then
    .error (.InvalidBrief "task_definition cannot be empty")
  else if agent_name = "4_DOCUMENTS" then
    validate_4_documents_brief brief
  else if agent_name = "PREPARATION" then
    validate_preparation_brief brief
  else if agent_name = "CHIRALITY_FRAMEWORK" then
    validate_chirality_framework_brief brief
  else if agent_name = "DEPENDENCIES" then
    validate_dependencies_brief brief
  else if agent_name = "AGGREGATION" then
    validate_aggregation_brief brief
  else
    .ok ()

end BriefParser

/-- C6 counterexample: an explicitly empty `task_definition` string is
accepted by `BriefParser::parse`, which then returns a brief whose
`task_definition` is empty — `parse` does not reject the empty string. -/
theorem c6_counterexample :
    ∃ b, BriefParser.parse (Json.obj [("task_definition", Json.str "")]) =
      .ok b ∧ b.task_definition = "" :=
  ⟨_, rfl, rfl⟩

/-- C6 (amended): `parse` fails with `InvalidBrief` exactly when the
`task_definition` field is missing or not a string; a present string value,
empty included, is accepted verbatim, and the empty case is rejected only
later by `validate`. -/
theorem c6_parse_task_definition (input : Json) :
    ((input.get "task_definition").bind Json.as_str = none →
      BriefParser.parse input =
        .error (.InvalidBrief "Missing task_definition")) ∧
    (∀ s, (input.get "task_definition").bind Json.as_str = some s →
      ∃ b, BriefParser.parse input = .ok b ∧ b.task_definition = s) ∧
    (∀ b : SessionBrief, ∀ name : String, b.task_definition = "" →
      BriefParser.validate b name =
        .error (.InvalidBrief "task_definition cannot be empty")) := by
  refine ⟨?_, ?_, ?_⟩
  · intro h
    simp [BriefParser.parse, h]
  · intro s h
    refine ⟨{ task_definition := s
              scope_description :=
                ((input.get "scope_description").bind Json.as_str).getD ""
              output_contract :=
                BriefParser.parse_string_array (input.get "output_contract")
              constraints :=
                BriefParser.parse_string_array (input.get "constraints")
              success_criteria :=
                BriefParser.parse_string_array (input.get "success_criteria")
              inputs := (input.get "inputs").getD .null }, ?_, rfl⟩
    simp [BriefParser.parse, h]
  · intro b name h
    simp [BriefParser.validate, h]

/-- C6 witness: an input with no `task_definition` field is rejected. -/
theorem c6_witness :
    BriefParser.parse (Json.obj []) =
      .error (.InvalidBrief "Missing task_definition") :=
  (c6_parse_task_definition (Json.obj [])).1 rfl

/-- C7: agent-specific required-key validation, for briefs whose
`task_definition` is non-empty: "4_DOCUMENTS" and "CHIRALITY_FRAMEWORK"
succeed exactly when `inputs` has `deliverable_id`; "PREPARATION" when it
has `package_id` or `project_id`; "DEPENDENCIES" when it has any of the
three; "AGGREGATION" when it has `project_id`; every other agent name
succeeds unconditionally; each failure is `InvalidBrief` naming the
missing key. -/
theorem c7_validate_agent_requirements (b : SessionBrief)
    (h : b.task_definition ≠ "") :
    (BriefParser.validate b "4_DOCUMENTS" = .ok () ↔
      (b.inputs.get "deliverable_id").isSome = true) ∧
    (BriefParser.validate b "CHIRALITY_FRAMEWORK" = .ok () ↔
      (b.inputs.get "deliverable_id").isSome = true) ∧
    (BriefParser.validate b "PREPARATION" = .ok () ↔
      ((b.inputs.get "package_id").isSome = true ∨
       (b.inputs.get "project_id").isSome = true)) ∧
    (BriefParser.validate b "DEPENDENCIES" = .ok () ↔
      ((b.inputs.get "deliverable_id").isSome = true ∨
       (b.inputs.get "package_id").isSome = true ∨
       (b.inputs.get "project_id").isSome = true)) ∧
    (BriefParser.validate b "AGGREGATION" = .ok () ↔
      (b.inputs.get "project_id").isSome = true) ∧
    (∀ name : String,
      name ∉ (["4_DOCUMENTS", "PREPARATION", "CHIRALITY_FRAMEWORK",
        "DEPENDENCIES", "AGGREGATION"] : List String) →
      BriefParser.validate b name = .ok ()) ∧
    (BriefParser.validate b "4_DOCUMENTS" ≠ .ok () →
      BriefParser.validate b "4_DOCUMENTS" =
        .error (.InvalidBrief "4_DOCUMENTS requires deliverable_id in inputs")) ∧
    (BriefParser.validate b "CHIRALITY_FRAMEWORK" ≠ .ok () →
      BriefParser.validate b "CHIRALITY_FRAMEWORK" =
        .error (.InvalidBrief
          "CHIRALITY_FRAMEWORK requires deliverable_id in inputs")) ∧
    (BriefParser.validate b "PREPARATION" ≠ .ok () →
      BriefParser.validate b "PREPARATION" =
        .error (.InvalidBrief
          "PREPARATION requires package_id or project_id in inputs")) ∧
    (BriefParser.validate b "DEPENDENCIES" ≠ .ok () →
      BriefParser.validate b "DEPENDENCIES" =
        .error (.InvalidBrief
          "DEPENDENCIES requires a scope (deliverable_id, package_id, or project_id)")) ∧
    (BriefParser.validate b "AGGREGATION" ≠ .ok () →
      BriefParser.validate b "AGGREGATION" =
        .error (.InvalidBrief "AGGREGATION requires project_id in inputs")) := by
  refine ⟨?_, ?_, ?_, ?_, ?_, ?_, ?_, ?_, ?_, ?_, ?_⟩
  · cases hx : b.inputs.get "deliverable_id" <;>
      simp [BriefParser.validate, BriefParser.validate_4_documents_brief, h, hx]
  · cases hx : b.inputs.get "deliverable_id" <;>
      simp [BriefParser.validate,
        BriefParser.validate_chirality_framework_brief, h, hx]
  · cases hp : b.inputs.get "package_id" <;>
      cases hq : b.inputs.get "project_id" <;>
      simp [BriefParser.validate, BriefParser.validate_preparation_brief,
        h, hp, hq]
  · cases hx : b.inputs.get "deliverable_id" <;>
      cases hp : b.inputs.get "package_id" <;>
      cases hq : b.inputs.get "project_id" <;>
      simp [BriefParser.validate, BriefParser.validate_dependencies_brief,
        h, hx, hp, hq]
  · cases hq : b.inputs.get "project_id" <;>
      simp [BriefParser.validate, BriefParser.validate_aggregation_brief, h, hq]
  · intro name hn
    simp only [List.mem_cons, List.not_mem_nil, or_false, not_or] at hn
    obtain ⟨h1, h2, h3, h4, h5⟩ := hn
    simp [BriefParser.validate, h, h1, h2, h3, h4, h5]
  · cases hx : b.inputs.get "deliverable_id" <;>
      simp [BriefParser.validate, BriefParser.validate_4_documents_brief, h, hx]
  · cases hx : b.inputs.get "deliverable_id" <;>
      simp [BriefParser.validate,
        BriefParser.validate_chirality_framework_brief, h, hx]
  · cases hp : b.inputs.get "package_id" <;>
      cases hq : b.inputs.get "project_id" <;>
      simp [BriefParser.validate, BriefParser.validate_preparation_brief,
        h, hp, hq]
  · cases hx : b.inputs.get "deliverable_id" <;>
      cases hp : b.inputs.get "package_id" <;>
      cases hq : b.inputs.get "project_id" <;>
      simp [BriefParser.validate, BriefParser.validate_dependencies_brief,
        h, hx, hp, hq]
  · cases hq : b.inputs.get "project_id" <;>
      simp [BriefParser.validate, BriefParser.validate_aggregation_brief, h, hq]

/-- A concrete brief used to witness C7. -/
def c7Brief : SessionBrief :=
  { task_definition := "Generate docs"
    scope_description := ""
    output_contract := []
    constraints := []
    success_criteria := []
    inputs := Json.obj [("deliverable_id", Json.str "del:x")] }

/-- C7 witness: a brief carrying `deliverable_id` passes "4_DOCUMENTS". -/
theorem c7_witness : BriefParser.validate c7Brief "4_DOCUMENTS" = .ok () :=
  (c7_validate_agent_requirements c7Brief (by decide)).1.mpr rfl

/-- C8: defaults on successful parses: `scope_description` echoes the field
when it is a string and is empty otherwise; each string-array field is the
`filterMap`-extracted string entries of the corresponding JSON array and is
empty when the field is absent or not an array; `inputs` is `null` when the
field is absent. -/
theorem c8_parse_optional_defaults (input : Json) (b : SessionBrief)
    (h : BriefParser.parse input = .ok b) :
    ((input.get "scope_description").bind Json.as_str = none →
      b.scope_description = "") ∧
    (∀ s, (input.get "scope_description").bind Json.as_str = some s →
      b.scope_description = s) ∧
    (∀ elems, (input.get "output_contract").bind Json.as_array = some elems →
      b.output_contract = elems.filterMap Json.as_str) ∧
    ((input.get "output_contract").bind Json.as_array = none →
      b.output_contract = []) ∧
    (∀ elems, (input.get "constraints").bind Json.as_array = some elems →
      b.constraints = elems.filterMap Json.as_str) ∧
    ((input.get "constraints").bind Json.as_array = none →
      b.constraints = []) ∧
    (∀ elems, (input.get "success_criteria").bind Json.as_array = some elems →
      b.success_criteria = elems.filterMap Json.as_str) ∧
    ((input.get "success_criteria").bind Json.as_array = none →
      b.success_criteria = []) ∧
    (input.get "inputs" = none → b.inputs = Json.null) := by
  cases hx : (input.get "task_definition").bind Json.as_str with
  | none =>
      simp [BriefParser.parse, hx] at h
  | some td =>
      simp [BriefParser.parse, hx] at h
      subst h
      refine ⟨?_, ?_, ?_, ?_, ?_, ?_, ?_, ?_, ?_⟩
      · intro hs; simp [hs]
      · intro s hs; simp [hs]
      · intro elems he; simp [BriefParser.parse_string_array, he]
      · intro he; simp [BriefParser.parse_string_array, he]
      · intro elems he; simp [BriefParser.parse_string_array, he]
      · intro he; simp [BriefParser.parse_string_array, he]
      · intro elems he; simp [BriefParser.parse_string_array, he]
      · intro he; simp [BriefParser.parse_string_array, he]
      · intro hi; simp [hi]

/-- The brief produced by parsing the minimal spec-test input. -/
def c8Brief : SessionBrief :=
  { task_definition := "X"
    scope_description := ""
    output_contract := []
    constraints := []
    success_criteria := []
    inputs := Json.null }

/-- C8 witness: parsing an input holding only `task_definition` yields empty
array fields and null inputs. -/
theorem c8_witness :
    c8Brief.output_contract = [] ∧ c8Brief.inputs = Json.null :=
  ⟨(c8_parse_optional_defaults (Json.obj [("task_definition", Json.str "X")])
      c8Brief rfl).2.2.2.1 rfl,
   (c8_parse_optional_defaults (Json.obj [("task_definition", Json.str "X")])
      c8Brief rfl).2.2.2.2.2.2.2.2 rfl⟩

/-- `PackageId::new()` (src/crates/chirality-domain/src/entities/ids.rs),
given the freshly generated ULID token as a parameter. -/
def PackageId.new (ulid : String) : String :=
  "pkg:" ++ ulid

/-- Rust `format!("{:03}", n)`: decimal rendering zero-padded to width 3. -/
def padZero3 (n : Nat) : String :=
  let s := toString n
  String.mk (List.replicate (3 - s.length) '0') ++ s

/-- `PackageId::from_legacy` (`format!("PKG-{:03}", num)`). -/
def PackageId.from_legacy (num : Nat) : String :=
  "PKG-" ++ padZero3 num

/-- Package entity (src/crates/chirality-domain/src/entities/package.rs). -/
structure Package where
  id : String
  project_id : String
  label : String
  scope_items : List String
  folder_name : String
deriving DecidableEq, Repr

namespace Package

/-- `Package::sanitize_label`: every character that is neither alphanumeric
nor an underscore becomes an underscore. Rust's Unicode `char::is_alphanumeric`
is the parameter `alnum`. -/
def sanitize_label (alnum : Char → Bool) (label : String) : String :=
  String.mk (label.data.map (fun c => if alnum c || c = '_' then c else '_'))

/-- `Package::derive_folder_name`: a freshly generated package id (distinct
from the package's own id field), an underscore, then the sanitized label. -/
def derive_folder_name (alnum : Char → Bool) (folderUlid : String)
    (label : String) : String :=
  PackageId.new folderUlid ++ "_" ++ sanitize_label alnum label

/-- `Package::new`; `idUlid` and `folderUlid` are the two `Ulid::new()`
results drawn while constructing the id field and the folder name. -/
def new (alnum : Char → Bool) (idUlid folderUlid : String)
    (project_id label : String) : Package :=
  { id := PackageId.new idUlid
    project_id
    label
    scope_items := []
    folder_name := derive_folder_name alnum folderUlid label }

/-- `Package::with_legacy_id`. -/
def with_legacy_id (alnum : Char → Bool) (p : Package) (num : Nat) : Package :=
  { p with
      id := PackageId.from_legacy num
      folder_name := "PKG-" ++ padZero3 num ++ "_" ++ sanitize_label alnum p.label }

/-- `Package::with_scope_items`. -/
def with_scope_items (p : Package) (items : List String) : Package :=
  { p with scope_items := items }

end Package

/-- C9 counterexample: `Package::new` prefixes a freshly generated package id
to the sanitized label, so the folder name of a new package is not the bare
sanitized label (here with Lean's ASCII alphanumeric test standing in for
Rust's `char::is_alphanumeric`, on which the two agree for this label). -/
theorem c9_counterexample :
    (Package.new Char.isAlphanum "01HX" "01HY" "proj:p" "a b").folder_name =
      "pkg:01HY_a_b" ∧
    (Package.new Char.isAlphanum "01HX" "01HY" "proj:p" "a b").folder_name ≠
      Package.sanitize_label Char.isAlphanum "a b" := by
  constructor
  · rfl
  · decide

/-- C9 (amended): the folder name of a newly constructed package is the
freshly generated package id (`pkg:<ULID>`), an underscore, then the
sanitized label — never the bare sanitized label — and `with_legacy_id num`
replaces it with `PKG-<zero-padded num>_<sanitized label>`; sanitization
preserves length and maps each non-alphanumeric, non-underscore character
to an underscore. -/
theorem c9_folder_name (alnum : Char → Bool)
    (idUlid folderUlid project_id label : String) (num : Nat) :
    (Package.new alnum idUlid folderUlid project_id label).folder_name =
      "pkg:" ++ folderUlid ++ "_" ++ Package.sanitize_label alnum label ∧
    (Package.with_legacy_id alnum
        (Package.new alnum idUlid folderUlid project_id label) num).folder_name =
      "PKG-" ++ padZero3 num ++ "_" ++ Package.sanitize_label alnum label ∧
    (Package.sanitize_label alnum label).length = label.length ∧
    (Package.sanitize_label alnum label).data =
      label.data.map (fun c => if alnum c || c = '_' then c else '_') ∧
    (Package.new alnum idUlid folderUlid project_id label).folder_name ≠
      Package.sanitize_label alnum label := by
  refine ⟨rfl, rfl, ?_, rfl, ?_⟩
  · obtain ⟨l⟩ := label
    simp [Package.sanitize_label, String.length_mk]
  · intro heq
    have hlen := congrArg String.length heq
    rw [show (Package.new alnum idUlid folderUlid project_id label).folder_name =
      "pkg:" ++ folderUlid ++ "_" ++ Package.sanitize_label alnum label from rfl,
      String.length_append, String.length_append, String.length_append] at hlen
    have h4 : ("pkg:" : String).length = 4 := rfl
    have h1 : ("_" : String).length = 1 := rfl
    omega

/-- Agent type (src/crates/chirality-domain/src/entities/session.rs). -/
inductive AgentType where
  | Architect
  | Manager
  | Specialist
deriving DecidableEq, Repr

/-- Actor kind (src/crates/chirality-domain/src/entities/ids.rs). -/
inductive ActorKind where
  | Human
  | Agent
  | System
deriving DecidableEq, Repr

/-- Actor identity. -/
structure ActorId where
  kind : ActorKind
  id : String
deriving DecidableEq, Repr

/-- Session scope: what the session is operating on. -/
inductive SessionScope where
  | Project (project_id : String)
  | Package (package_id : String)
  | Deliverable (deliverable_id : String)
deriving DecidableEq, Repr

/-- Type of output produced by a session. -/
inductive OutputType where
  | Document
  | Snapshot
  | Report
  | Metadata
deriving DecidableEq, Repr

/-- Output from a session. -/
structure SessionOutput where
  output_type : OutputType
  path : Path
  content_hash : String
  description : Option String
deriving DecidableEq, Repr

/-- AgentSession entity (src/crates/chirality-domain/src/entities/session.rs);
timestamps are opaque `Nat` instants. -/
structure AgentSession where
  id : String
  agent_type : AgentType
  agent_class : AgentClass
  agent_name : String
  scope : SessionScope
  brief : Option SessionBrief
  state : SessionState
  write_scope : WriteScope
  outputs : List SessionOutput
  git_branch : Option String
  started_at : Nat
  completed_at : Option Nat
  started_by : ActorId

/-- `AgentSession::complete`: `now` stands for `Utc::now()`. -/
def AgentSession.complete (s : AgentSession) (now : Nat) : AgentSession :=
  { s with state := .Completed, completed_at := some now }

/-- `AgentSession::fail`. -/
def AgentSession.fail (s : AgentSession) (now : Nat) : AgentSession :=
  { s with state := .Failed, completed_at := some now }

/-- `AgentSession::add_output`. -/
def AgentSession.add_output (s : AgentSession) (output : SessionOutput) :
    AgentSession :=
  { s with outputs := s.outputs ++ [output] }

/-- C10: `complete` and `fail` act unconditionally on every session — any
state, any class: `complete` sets state to Completed and stamps
`completed_at`, `fail` sets state to Failed and stamps `completed_at`,
touching no other field and returning no error, so the session state
machine is bypassed; in particular a Cancelled or Created session moves
straight to Completed. -/
theorem c10_complete_fail_unconditional (s : AgentSession) (now : Nat) :
    ((s.complete now).state = .Completed ∧
     (s.complete now).completed_at = some now) ∧
    ((s.fail now).state = .Failed ∧
     (s.fail now).completed_at = some now) ∧
    ((s.complete now).id = s.id ∧
     (s.complete now).agent_class = s.agent_class ∧
     (s.complete now).outputs = s.outputs ∧
     (s.complete now).started_at = s.started_at ∧
     (s.fail now).id = s.id ∧
     (s.fail now).agent_class = s.agent_class ∧
     (s.fail now).outputs = s.outputs ∧
     (s.fail now).started_at = s.started_at) ∧
    (s.state = .Cancelled → (s.complete now).state = .Completed) ∧
    (s.state = .Created → (s.complete now).state = .Completed) :=
  ⟨⟨rfl, rfl⟩, ⟨rfl, rfl⟩, ⟨rfl, rfl, rfl, rfl, rfl, rfl, rfl, rfl⟩,
   fun _ => rfl, fun _ => rfl⟩

/-- A concrete cancelled Task session used to witness C10. -/
def c10Session : AgentSession :=
  { id := "session:01HX"
    agent_type := .Specialist
    agent_class := .Task
    agent_name := "4_DOCUMENTS"
    scope := .Deliverable "del:01HX"
    brief := none
    state := .Cancelled
    write_scope := .NoneScope
    outputs := []
    git_branch := none
    started_at := 0
    completed_at := none
    started_by := ⟨.Human, "alice"⟩ }

/-- C10 witness: a Cancelled session is moved straight to Completed. -/
theorem c10_witness : (c10Session.complete 42).state = .Completed :=
  (c10_complete_fail_unconditional c10Session 42).2.2.2.1 rfl

end Chirality
